import Mathlib

-- Shallow embedding of mikkurogue/ts-analyzer (src/parser.rs and src/suggestion.rs).
-- Strings are modelled as Lean `String` / `List Char`; Rust's `usize` is modelled as
-- `Nat` with an explicit `% 2^64` (64-bit target) where overflow or wrapping matters.
-- Fallible Rust code returning `Option` is modelled with Lean `Option`.
-- The decorative terminal styling from the `colored` crate (`.red().bold()` etc.) is
-- omitted: per the spec it is cosmetic only and not part of the functional contract.

namespace TsAnalyzer

/-- The quote character `'` (U+0027), written via its code point. -/
def quoteC : Char := Char.ofNat 39

/-- The left-brace character, written via its code point. -/
def lbrace : Char := Char.ofNat 123

/-- The right-brace character, written via its code point. -/
def rbrace : Char := Char.ofNat 125

/-- Does `pat` occur at the start of `s`? Models Rust `str::starts_with` on char lists. -/
def startsWithL : List Char → List Char → Bool
  | [], _ => true
  | _ :: _, [] => false
  | p :: ps, c :: cs => p = c && startsWithL ps cs

/-- Model of Rust `str::split_once(char)`: split at the first occurrence of `ch`,
`none` when `ch` does not occur. -/
def splitOnceChar (ch : Char) : List Char → Option (List Char × List Char)
  | [] => none
  | c :: rest =>
    if c = ch then some ([], rest)
    else (splitOnceChar ch rest).map fun p => (c :: p.1, p.2)

/-- Model of Rust `str::split_once(&str)`: split at the first occurrence of the
pattern `pat`, `none` when `pat` does not occur. -/
def splitOnceL (pat : List Char) : List Char → Option (List Char × List Char)
  | [] => if startsWithL pat [] then some ([], []) else none
  | c :: rest =>
    if startsWithL pat (c :: rest) then some ([], (c :: rest).drop pat.length)
    else (splitOnceL pat rest).map fun p => (c :: p.1, p.2)

/-- Model of Rust `str::split(char)`: the full list of parts between occurrences of
`ch` (always at least one part, like the Rust iterator). -/
def splitAllChar (ch : Char) : List Char → List (List Char)
  | [] => [[]]
  | c :: rest =>
    match splitAllChar ch rest with
    | [] => [[]]
    | p :: ps => if c = ch then [] :: p :: ps else (c :: p) :: ps

/-- Does `pat` occur anywhere in `s` (as a contiguous run)? Used only to state the
"suggestion line contains ..." parts of the claims. -/
def containsL (pat : List Char) : List Char → Bool
  | [] => startsWithL pat []
  | c :: rest => startsWithL pat (c :: rest) || containsL pat rest

/-- String-level wrapper for `containsL`. -/
def containsStr (s pat : String) : Bool := containsL pat.data s.data

/-- Model of Rust `str::trim` (whitespace on the ASCII range, which is all the
source's separators and messages use). -/
def trimL (s : List Char) : List Char :=
  ((s.dropWhile Char.isWhitespace).reverse.dropWhile Char.isWhitespace).reverse

/-- Model of `usize::from_str_radix(s, 10)` on a 64-bit target: an optional single
leading sign, then one or more base-10 digits; a `+` (or no sign) accepts any value
below `2^64`; a `-` only accepts a digit string of value zero (checked subtraction
from zero); anything else is an error (`none`). -/
def parseUsize (s : List Char) : Option Nat :=
  match s with
  | [] => none
  | c :: rest =>
    let signed : Bool × List Char :=
      if c = '+' then (false, rest) else if c = '-' then (true, rest) else (false, s)
    match signed with
    | (neg, ds) =>
      if ds = [] then none
      else if ds.all Char.isDigit then
        let v := ds.foldl (fun a d => a * 10 + (d.toNat - 48)) 0
        if neg then (if v = 0 then some 0 else none)
        else if v < 2 ^ 64 then some v else none
      else none

/-- The `CommonErrors` enum. `src/parser.rs` declares the first nineteen
constructors; `src/suggestion.rs` additionally matches seven synthesis-layer
constructors (the spec's "others used only by the synthesis layer").  The
right-side-arithmetic category appears as `RightSideArithmeticMustBeNumber` in
parser.rs and as `RightSideArithmeticMustBeEnumberable` in suggestion.rs; it is
modelled as the single constructor below under the parser's name. -/
inductive CommonErrors where
  | TypeMismatch
  | InlineTypeMismatch
  | MissingParameters
  | NoImplicitAny
  | PropertyMissingInType
  | UnintentionalComparison
  | PropertyDoesNotExist
  | ObjectIsPossiblyUndefined
  | ObjectIsPossiblyNull
  | ObjectIsUnknown
  | DirectCastPotentiallyMistaken
  | SpreadArgumentMustBeTupleType
  | RightSideArithmeticMustBeNumber
  | LeftSideArithmeticMustBeEnumberable
  | IncompatibleOverload
  | InvalidShadowInScope
  | NonExistentModuleImport
  | ReadonlyPropertyAssignment
  | IncorrectInterfaceImplementation
  | PropertyInClassNotAssignableToBase
  | CannotFindIdentifier
  | MissingReturnValue
  | UncallableExpression
  | InvalidIndexType
  | TypoPropertyOnType
  | Unsupported (code : String)
  deriving DecidableEq, Repr

/-- Model of `CommonErrors::from_code` (src/parser.rs lines 59-83): a first-match
equality chain over the known code strings, defaulting to `Unsupported` with the
original string. -/
def from_code (code : String) : CommonErrors :=
  if code = "TS2322" then .TypeMismatch
  else if code = "TS2345" then .InlineTypeMismatch
  else if code = "TS2554" then .MissingParameters
  else if code = "TS7006" then .NoImplicitAny
  else if code = "TS7044" then .NoImplicitAny
  else if code = "TS2741" then .PropertyMissingInType
  else if code = "TS2367" then .UnintentionalComparison
  else if code = "TS18046" then .ObjectIsUnknown
  else if code = "TS2339" then .PropertyDoesNotExist
  else if code = "TS2532" then .ObjectIsPossiblyUndefined
  else if code = "TS18048" then .ObjectIsPossiblyUndefined
  else if code = "TS2531" then .ObjectIsPossiblyNull
  else if code = "TS18047" then .ObjectIsPossiblyNull
  else if code = "TS2352" then .DirectCastPotentiallyMistaken
  else if code = "TS2556" then .SpreadArgumentMustBeTupleType
  else if code = "TS2363" then .RightSideArithmeticMustBeNumber
  else if code = "TS2394" then .IncompatibleOverload
  else if code = "TS2451" then .InvalidShadowInScope
  else if code = "TS2307" then .NonExistentModuleImport
  else if code = "TS2540" then .ReadonlyPropertyAssignment
  else if code = "TS2420" then .IncorrectInterfaceImplementation
  else .Unsupported code

/-- The code strings recognized by `from_code` (the documented table of spec section 6). -/
def knownCodes : List String :=
  ["TS2322", "TS2345", "TS2554", "TS7006", "TS7044", "TS2741", "TS2367", "TS18046",
   "TS2339", "TS2532", "TS18048", "TS2531", "TS18047", "TS2352", "TS2556", "TS2363",
   "TS2394", "TS2451", "TS2307", "TS2540", "TS2420"]

/-- The `TsError` record of src/parser.rs: the structured diagnostic. -/
structure TsError where
  file : String
  line : Nat
  column : Nat
  code : CommonErrors
  message : String
  deriving DecidableEq, Repr

/-- The separator of the second split of `parse`. -/
def sepParenError : List Char := "): error ".data

/-- The separator of the fourth split of `parse`. -/
def sepColonSpace : List Char := ": ".data

/-- Model of `parse` (src/parser.rs lines 85-98): four successive first-occurrence
splits, then base-10 parsing of the two coordinates; any failure yields `none`. -/
def parse (line : String) : Option TsError :=
  match splitOnceChar '(' line.data with
  | none => none
  | some fr =>
    match splitOnceL sepParenError fr.2 with
    | none => none
    | some cr =>
      match splitOnceChar ',' cr.1 with
      | none => none
      | some lc =>
        match splitOnceL sepColonSpace cr.2 with
        | none => none
        | some cm =>
          match parseUsize lc.1 with
          | none => none
          | some ln =>
            match parseUsize lc.2 with
            | none => none
            | some col =>
              some ⟨String.mk fr.1, ln, col, from_code (String.mk cm.1), String.mk cm.2⟩

/-- Modelled from the spec: the `Token` record produced by the external tokenizer
(src/tokenizer.rs is not part of the given sources). Spec section 3: raw text plus
a line and a 0-based column; src/suggestion.rs reads exactly the fields
`raw`, `line` and `column`. -/
structure Token where
  raw : String
  line : Nat
  column : Nat
  deriving DecidableEq, Repr

/-- The `Suggestion` record of src/suggestion.rs. -/
structure Suggestion where
  suggestions : List String
  help : Option String
  deriving DecidableEq, Repr

/-- Wrapping `usize` subtraction of 1 on a 64-bit target: the release-build meaning
of `err.column - 1` in src/suggestion.rs (lines 59 and 101). -/
def sub1w (n : Nat) : Nat := (n + (2 ^ 64 - 1)) % 2 ^ 64

/-- The per-token test of the position-based lookup loops (src/suggestion.rs
lines 58-60 and 100-102): the token is on the error's line and the half-open span
`[column, column + chars-count)` contains `col0`. -/
def tokenHit (eLine col0 : Nat) (t : Token) : Bool :=
  t.line == eLine && t.column ≤ col0 && col0 < t.column + t.raw.data.length

/-- The position-based token lookup: first token of the sequence (in input order)
that `tokenHit`s the error's line and wrapped `column - 1`. -/
def findTok (e : TsError) (ts : List Token) : Option Token :=
  ts.find? (tokenHit e.line (sub1w e.column))

/-- Model of `err.message.split('\x27').nth(n).unwrap_or(d)`: the `n`-th part of the
message split on the quote character, or the placeholder `d`. -/
def nthOr (msg : String) (n : Nat) (d : String) : String :=
  match (splitAllChar quoteC msg.data).get? n with
  | some l => String.mk l
  | none => d

/-- The subject name of `MissingParametersHandler` (src/suggestion.rs lines 49-65):
the first hit token's raw text, else the message-derived or placeholder name. -/
def mpName (e : TsError) (ts : List Token) : String :=
  match findTok e ts with
  | some t => t.raw
  | none => nthOr e.message 1 "function"

/-- The variable name of `PropertyMissingInTypeHandler` (src/suggestion.rs lines
98-107): the first hit token's raw text, else the empty string it was initialized to. -/
def pmVarName (e : TsError) (ts : List Token) : String :=
  match findTok e ts with
  | some t => t.raw
  | none => ""

/-- Helper of `read_quoted` and of the secondary scan in `parse_ts2322_error`
(src/suggestion.rs lines 567-581 and 596-607): the characters up to the next quote
(or the end), and the rest after that quote. -/
def takeUntilQuote : List Char → List Char × List Char
  | [] => ([], [])
  | c :: r => if c = quoteC then ([], r) else
    match takeUntilQuote r with
    | (o, rest) => (c :: o, rest)

/-- The second scanning loop of `parse_ts2322_error` (src/suggestion.rs lines
596-607): skip to the next quote and collect until the following quote or the end;
`none` when the characters run out without a quote (the outer loop then also runs
out and the function returns `None`). -/
def scanSecondary : List Char → Option (List Char)
  | [] => none
  | c :: r => if c = quoteC then some (takeUntilQuote r).1 else scanSecondary r

/-- Model of `parse_ts2322_error` (src/suggestion.rs lines 564-612): consume one
character, then look ahead for `ype '`; on a hit, read the quoted segment as `from`
and scan ahead for the next quoted segment as the second component; otherwise keep
scanning.  Lookahead exhaustion mid-pattern makes the whole function return `None`
in the source (the `?` operator); at that point fewer than five characters remain,
so no later hit is possible and plain `none` is the same result. -/
def parse2322core : List Char → Option (List Char × List Char)
  | [] => none
  | _ :: rest =>
    match rest with
    | 'y' :: 'p' :: 'e' :: ' ' :: q :: after =>
      if q = quoteC then
        match takeUntilQuote after with
        | (fr, r1) =>
          match scanSecondary r1 with
          | some sec => some (fr, sec)
          | none => none
      else parse2322core rest
    | _ => parse2322core rest

/-- Model of `type_mismatch_2322` (src/suggestion.rs lines 527-537), styling
omitted. -/
def typeMismatch2322 (e : TsError) : Option String :=
  (parse2322core e.message.data).map fun p =>
    "Try converting this value from `" ++ String.mk p.1 ++ "` to `" ++ String.mk p.2 ++ "`."

/-- The marker of the provided object literal of `parse_ts2345_error`. -/
def markerArg : List Char := "Argument of type \x27".data

/-- The marker of the expected object literal of `parse_ts2345_error`. -/
def markerParam : List Char := "to parameter of type \x27".data

/-- Model of `extract_object_type` (src/suggestion.rs lines 645-650): the text after
the first occurrence of `marker` up to the next quote. -/
def extractObjectType (msg marker : List Char) : Option (List Char) :=
  match splitOnceL marker msg with
  | some p => (splitOnceChar quoteC p.2).map fun q => q.1
  | none => none

/-- Insertion into an association list with the overwrite semantics of
`HashMap::insert` (a later insert of an existing key replaces its value). -/
def insertA : List (String × String) → String → String → List (String × String)
  | [], k, v => [(k, v)]
  | (k', v') :: rest, k, v =>
    if k' = k then (k, v) :: rest else (k', v') :: insertA rest k v

/-- Lookup in an association list, the model of `HashMap::get`. -/
def lookupA : List (String × String) → String → Option String
  | [], _ => none
  | (k', v) :: rest, k => if k' = k then some v else lookupA rest k

/-- The loop body of `parse_object_properties` (src/suggestion.rs lines 662-673):
skip an all-whitespace clause, otherwise split at the first `:` (a clause without
one is skipped) and insert the trimmed key/value pair. -/
def insertClause (m : List (String × String)) (clause : List Char) : List (String × String) :=
  let cl := trimL clause
  if cl = [] then m
  else
    match splitOnceChar ':' cl with
    | some kv => insertA m (String.mk (trimL kv.1)) (String.mk (trimL kv.2))
    | none => m

/-- Model of `parse_object_properties` (src/suggestion.rs lines 652-676): trim, keep
only text of the shape `{ ... }` (otherwise the empty mapping), split the interior
on `;`, and fold the clauses into the mapping.  The source's `HashMap` is modelled
as an association list; its iteration order is examined separately where a claim
depends on it. -/
def parseObjectProps (obj : List Char) : List (String × String) :=
  let t := trimL obj
  if t.head? == some lbrace && t.getLast? == some rbrace then
    (splitAllChar ';' ((t.drop 1).dropLast)).foldl insertClause []
  else []

/-- The mismatch loop of `parse_ts2345_error` (src/suggestion.rs lines 633-641):
one entry `(property, provided, expected)` for every property of the expected
mapping that the provided mapping maps to a different type text. -/
def diffProps (prov exp : List (String × String)) : List (String × String × String) :=
  exp.filterMap fun kv =>
    match lookupA prov kv.1 with
    | some pt => if pt ≠ kv.2 then some (kv.1, pt, kv.2) else none
    | none => none

/-- Model of `parse_ts2345_error` (src/suggestion.rs lines 625-643): extract both
object literals (either missing fails), parse both property mappings, diff. -/
def parse2345 (msg : String) : Option (List (String × String × String)) :=
  match extractObjectType msg.data markerArg with
  | none => none
  | some provObj =>
    match extractObjectType msg.data markerParam with
    | none => none
    | some expObj => some (diffProps (parseObjectProps provObj) (parseObjectProps expObj))

/-- Model of `inline_type_mismatch_2345` (src/suggestion.rs lines 540-562), styling
omitted: `none` when the diff fails or is empty, else one line per mismatch. -/
def inline2345 (msg : String) : Option (List String) :=
  match parse2345 msg with
  | some ms =>
    if ms = [] then none
    else some (ms.map fun t =>
      "Property `" ++ t.1 ++ "` is provided as `" ++ t.2.1 ++ "` but expects `" ++ t.2.2 ++ "`.")
  | none => none

/-- Helper of `parse_property_missing_error`: the text after the LAST occurrence of
`marker` (Rust `str::rfind`), `none` when `marker` does not occur. -/
def rfindAfter (marker : List Char) : List Char → Option (List Char)
  | [] => if startsWithL marker [] then some [] else none
  | c :: rest =>
    match rfindAfter marker rest with
    | some r => some r
    | none =>
      if startsWithL marker (c :: rest) then some ((c :: rest).drop marker.length)
      else none

/-- Model of `parse_property_missing_error` (src/suggestion.rs lines 614-623): the
text between the last `type '` marker and the following quote. -/
def parsePropertyMissing (msg : String) : Option String :=
  match rfindAfter "type \x27".data msg.data with
  | some rest =>
    match splitOnceChar quoteC rest with
    | some p => some (String.mk p.1)
    | none => none
  | none => none

/-- Model of `Suggestion::build` (src/suggestion.rs lines 477-524) together with the
per-category `SuggestionHandler::handle` bodies it dispatches to, styling omitted.
`ObjectIsPossiblyNull`, `ObjectIsUnknown` and `Unsupported` return `None` directly
in the source. -/
def build (e : TsError) (ts : List Token) : Option Suggestion :=
  match e.code with
  | .TypeMismatch =>
    (typeMismatch2322 e).map fun s =>
      ⟨[s], some "Ensure that the types are compatible or perform an explicit conversion."⟩
  | .InlineTypeMismatch =>
    some ⟨(inline2345 e.message).getD [],
      some "Check the function arguments to ensure they match the expected parameter types."⟩
  | .MissingParameters =>
    some ⟨["Check if all required arguments are provided when invoking " ++ mpName e ts],
      some ("Function `" ++ mpName e ts ++ "` is missing 1 or more arguments.")⟩
  | .NoImplicitAny =>
    some ⟨[nthOr e.message 1 "parameter" ++ " is implicitly `any`."],
      some "Consider adding type annotations to avoid implicit \x27any\x27 types."⟩
  | .PropertyMissingInType =>
    match parsePropertyMissing e.message with
    | some typeName =>
      some ⟨["Verify that `" ++ pmVarName e ts ++ "` matches the annotated type `" ++
          typeName ++ "`."],
        some ("Ensure that `" ++ pmVarName e ts ++
          "` has all required properties defined in the type `" ++ typeName ++ "`.")⟩
    | none =>
      some ⟨["Verify that the object structure includes all required members of the specified type."],
        some "Ensure the object has all required properties defined in the type."⟩
  | .UnintentionalComparison =>
    some ⟨["Impossible to compare as left side value is narrowed to a single value."],
      some "Review the comparison logic to ensure it makes sense."⟩
  | .PropertyDoesNotExist =>
    some ⟨["Property `" ++ nthOr e.message 1 "property" ++ "` is not found on type `" ++
        nthOr e.message 3 "type" ++ "`."],
      some "Ensure the property exists on the type or adjust your code to avoid accessing it."⟩
  | .ObjectIsPossiblyUndefined =>
    some ⟨[nthOr e.message 1 "object" ++ " may be `undefined` here."],
      some ("Consider optional chaining or an explicit check before attempting to access `" ++
        nthOr e.message 1 "object" ++ "`")⟩
  | .ObjectIsPossiblyNull => none
  | .ObjectIsUnknown => none
  | .DirectCastPotentiallyMistaken =>
    some ⟨["Directly casting from `" ++ nthOr e.message 1 "type" ++ "` to `" ++
        nthOr e.message 3 "type" ++
        "` can be unsafe or mistaken, as both types do not overlap sufficiently."],
      some ("Consider using type guards or intermediate conversions to ensure type safety when casting from `" ++
        nthOr e.message 1 "type" ++ "` to `" ++ nthOr e.message 3 "type" ++
        "`, only intermediately cast `as unknown` if this is desired.")⟩
  | .SpreadArgumentMustBeTupleType =>
    some ⟨["The argument being spread must be a tuple type or a `spreadable` type."],
      some "Ensure that the argument being spread is a tuple type compatible with the function\x27s parameter type."⟩
  | .RightSideArithmeticMustBeNumber =>
    some ⟨["The right-hand side of any arithmetic operation must be a number or enumerable."],
      some "Ensure that the value on the right side of the arithmetic operator is of type `number`, `bigint` or an enum member."⟩
  | .LeftSideArithmeticMustBeEnumberable =>
    some ⟨["The left-hand side of any arithmetic operation must be a number or enumerable."],
      some "Ensure that the value on the left side of the arithmetic operator is of type `number`, `bigint` or an enum member."⟩
  | .IncompatibleOverload =>
    some ⟨["The provided arguments do not match any overload of the function."],
      some "Check the function overloads and ensure that this signature adheres to the parent signature."⟩
  | .InvalidShadowInScope =>
    some ⟨["Declared variable `" ++ nthOr e.message 1 "variable" ++
        "` can not shadow another variable in this scope."],
      some ("Consider renaming the invalid shadowed variable `" ++
        nthOr e.message 1 "variable" ++ "`.")⟩
  | .NonExistentModuleImport =>
    some ⟨["Module `" ++ nthOr e.message 1 "module" ++ "` does not exist."],
      some ("Ensure that the module `" ++ nthOr e.message 1 "module" ++
        "` is installed and the import path is correct.")⟩
  | .ReadonlyPropertyAssignment =>
    some ⟨["Property `" ++ nthOr e.message 1 "property" ++
        "` is readonly and thus can not be re-assigned."],
      some ("Consider removing the assignment to the read-only property `" ++
        nthOr e.message 1 "property" ++ "` or changing its declaration to be mutable.")⟩
  | .IncorrectInterfaceImplementation =>
    some ⟨["Class `" ++ nthOr e.message 1 "class" ++ "` does not implement `" ++
        nthOr e.message 5 "property" ++ "` from interface `" ++
        nthOr e.message 3 "interface" ++ "`."],
      some ("Ensure that `" ++ nthOr e.message 1 "class" ++
        "` provides all required properties and methods defined in the interface `" ++
        nthOr e.message 3 "interface" ++ "`.")⟩
  | .PropertyInClassNotAssignableToBase =>
    some ⟨["Property `" ++ nthOr e.message 1 "property" ++ "` in class `" ++
        nthOr e.message 3 "type" ++
        "` is not assignable to the same property in base class `" ++
        nthOr e.message 5 "base type" ++ "`.",
        "Property `" ++ nthOr e.message 1 "property" ++ "` is implemented as type `" ++
        nthOr e.message 7 "type" ++ "` but defined as `" ++
        nthOr e.message 9 "base type" ++ "`."],
      some ("Ensure that the type of property `" ++ nthOr e.message 1 "property" ++
        "` in class `" ++ nthOr e.message 3 "type" ++
        "` is compatible with the type defined in base class `" ++
        nthOr e.message 5 "base type" ++ "`.")⟩
  | .CannotFindIdentifier =>
    some ⟨["Identifier `" ++ nthOr e.message 1 "identifier" ++
        "` cannot be found in the current scope."],
      some ("Ensure that `" ++ nthOr e.message 1 "identifier" ++
        "` is declared and accessible in the current scope or remove this reference.")⟩
  | .MissingReturnValue =>
    some ⟨["A return value is missing where one is expected."],
      some "A function that declares a return type must return a value of that type on all branches."⟩
  | .UncallableExpression =>
    some ⟨["Expression `" ++ nthOr e.message 1 "expression" ++
        "` not can not be invoked or called."],
      some ("Ensure that `" ++ nthOr e.message 1 "expression" ++
        "` is a function or has a callable signature before invoking it.")⟩
  | .InvalidIndexType =>
    some ⟨["`" ++ nthOr e.message 1 "type" ++ "` cannot be used as an index accessor."],
      some "Ensure that the index type is `number`, `string`, `symbole` or a compatible index type."⟩
  | .TypoPropertyOnType =>
    some ⟨["Property `" ++ nthOr e.message 1 "property" ++ "` does not exist on type `" ++
        nthOr e.message 3 "type" ++ "`. Try `" ++ nthOr e.message 5 "property" ++
        "` instead"],
      some ("Check for typos in the property name `" ++ nthOr e.message 1 "property" ++
        "` or ensure that it is defined on type `" ++ nthOr e.message 3 "type" ++ "`.")⟩
  | .Unsupported _ => none

/-- Checked `usize` subtraction: `none` is the overflow the debug profile turns
into a panic. -/
def checkedSub (a b : Nat) : Option Nat := if b ≤ a then some (a - b) else none

/-- The token loop of `MissingParametersHandler` under the debug profile, where the
`usize` expression `err.column - 1` (src/suggestion.rs line 59) panics on overflow.
`Except.error ()` marks that panic; the `&&` chain short-circuits, so the
subtraction only runs once a token's line matches the error's line. -/
def findTokD (eLine col : Nat) : List Token → Except Unit (Option Token)
  | [] => .ok none
  | t :: rest =>
    if t.line == eLine then
      match checkedSub col 1 with
      | none => .error ()
      | some c0 =>
        if t.column ≤ c0 && c0 < t.column + t.raw.data.length then .ok (some t)
        else findTokD eLine col rest
    else findTokD eLine col rest

/-- `MissingParametersHandler::handle` under the debug profile: `Except.error ()`
marks the arithmetic-overflow panic of `err.column - 1`. -/
def missingParametersD (e : TsError) (ts : List Token) : Except Unit Suggestion :=
  (findTokD e.line e.column ts).map fun r =>
    let name := match r with
      | some t => t.raw
      | none => nthOr e.message 1 "function"
    ⟨["Check if all required arguments are provided when invoking " ++ name],
      some ("Function `" ++ name ++ "` is missing 1 or more arguments.")⟩

/-- The keys of an association list are pairwise distinct.  Every mapping built by
`parseObjectProps` satisfies this, mirroring the key uniqueness of the source's
`HashMap`. -/
def keyNodup (m : List (String × String)) : Prop := (m.map Prod.fst).Nodup

/-- Shape of the strings `parseUsize` can accept: an optional single leading sign
followed by one or more base-10 digits.  Any coordinate text outside this shape
(that is, any non-numeric text) fails the parse. -/
def numericShape : List Char → Bool
  | [] => false
  | c :: rest =>
    if c = '+' || c = '-' then !rest.isEmpty && rest.all Char.isDigit
    else (c :: rest).all Char.isDigit

/-- Lookup in a key-distinct association list finds exactly its members. -/
theorem lookupA_eq_some_iff (m : List (String × String)) (h : keyNodup m) (k v : String) :
    lookupA m k = some v ↔ (k, v) ∈ m := by
  induction m with
  | nil => simp [lookupA]
  | cons kv rest ih =>
    obtain ⟨k', v'⟩ := kv
    simp only [keyNodup, List.map_cons, List.nodup_cons] at h
    have ihr := ih h.2
    by_cases hk : k' = k
    · subst hk
      simp only [lookupA, List.mem_cons]
      simp only [if_true]
      constructor
      · intro h'
        injection h' with h'
        exact Or.inl (by rw [h'])
      · rintro (heq | hmem)
        · injection heq with h1 h2
          rw [h2]
        · exact absurd (List.mem_map_of_mem Prod.fst hmem) h.1
    · simp only [lookupA, List.mem_cons]
      rw [if_neg hk, ihr]
      constructor
      · exact Or.inr
      · rintro (heq | hm)
        · exact absurd ((Prod.mk.inj heq).1).symm hk
        · exact hm

/-- Membership characterization of the mismatch list: when the expected mapping has
distinct keys, `(p, pv, ev)` is produced exactly when the expected mapping has `p` at
type text `ev`, the provided mapping has `p` at a different type text `pv`. -/
theorem mem_diffProps (prov exp : List (String × String)) (h : keyNodup exp)
    (p pv ev : String) :
    (p, pv, ev) ∈ diffProps prov exp ↔
      lookupA exp p = some ev ∧ lookupA prov p = some pv ∧ pv ≠ ev := by
  rw [diffProps, List.mem_filterMap]
  constructor
  · rintro ⟨⟨k, et⟩, hmem, hf⟩
    dsimp only at hf
    cases hl : lookupA prov k with
    | none => rw [hl] at hf; exact absurd hf (by simp)
    | some pt =>
      rw [hl] at hf
      dsimp only at hf
      split_ifs at hf with hne
      obtain ⟨hk, hpt, het⟩ : k = p ∧ pt = pv ∧ et = ev := by
        simpa [Prod.ext_iff] using hf
      rw [← hk, ← hpt, ← het]
      exact ⟨(lookupA_eq_some_iff exp h k et).mpr hmem, hl, hne⟩
  · rintro ⟨he, hp, hne⟩
    refine ⟨(p, ev), (lookupA_eq_some_iff exp h p ev).mp he, ?_⟩
    simp [hp, hne]

/-- The keys occurring after an overwrite-insert are the new key and the old keys. -/
theorem mem_keys_insertA (m : List (String × String)) (k v x : String)
    (hx : x ∈ (insertA m k v).map Prod.fst) : x = k ∨ x ∈ m.map Prod.fst := by
  induction m with
  | nil => simpa [insertA] using hx
  | cons kv rest ih =>
    obtain ⟨k', v'⟩ := kv
    by_cases hk : k' = k
    · simp only [insertA] at hx
      rw [if_pos hk] at hx
      simp only [List.map_cons, List.mem_cons] at hx ⊢
      rcases hx with hx | hx
      · exact Or.inl hx
      · exact Or.inr (Or.inr hx)
    · simp only [insertA] at hx
      rw [if_neg hk] at hx
      simp only [List.map_cons, List.mem_cons] at hx ⊢
      rcases hx with hx | hx
      · exact Or.inr (Or.inl hx)
      · rcases ih hx with h1 | h1
        · exact Or.inl h1
        · exact Or.inr (Or.inr h1)

/-- Overwrite-insert preserves key distinctness. -/
theorem keyNodup_insertA (m : List (String × String)) (k v : String)
    (h : keyNodup m) : keyNodup (insertA m k v) := by
  induction m with
  | nil => simp [insertA, keyNodup]
  | cons kv rest ih =>
    obtain ⟨k', v'⟩ := kv
    simp only [keyNodup, List.map_cons, List.nodup_cons] at h
    by_cases hk : k' = k
    · subst hk
      simp only [insertA, if_true]
      simp only [keyNodup, List.map_cons, List.nodup_cons]
      exact h
    · simp only [insertA]
      rw [if_neg hk]
      simp only [keyNodup, List.map_cons, List.nodup_cons]
      refine ⟨?_, ih h.2⟩
      intro hmem
      rcases mem_keys_insertA rest k v k' hmem with heq | hmem'
      · exact hk heq
      · exact h.1 hmem'

/-- One clause-insertion step preserves key distinctness. -/
theorem keyNodup_insertClause (m : List (String × String)) (cl : List Char)
    (h : keyNodup m) : keyNodup (insertClause m cl) := by
  unfold insertClause
  dsimp only
  split
  · exact h
  · split
    · exact keyNodup_insertA _ _ _ h
    · exact h

/-- Folding clause insertions from a key-distinct mapping stays key-distinct. -/
theorem keyNodup_foldl (cs : List (List Char)) :
    ∀ m : List (String × String), keyNodup m → keyNodup (cs.foldl insertClause m) := by
  induction cs with
  | nil => exact fun m h => h
  | cons c rest ih =>
    intro m h
    exact ih (insertClause m c) (keyNodup_insertClause m c h)

/-- Every mapping produced by `parseObjectProps` has pairwise-distinct keys. -/
theorem keyNodup_parseObjectProps (obj : List Char) : keyNodup (parseObjectProps obj) := by
  unfold parseObjectProps
  dsimp only
  split
  · exact keyNodup_foldl _ [] (by simp [keyNodup])
  · simp [keyNodup]

/-- Claim C1: classification is total and preserving — every known code string of
the documented table maps to exactly its documented category, and every string not
in the table maps to `Unsupported` carrying the original input verbatim.
Totality never fails by construction (`from_code` is a total function). -/
theorem c1_classification_total :
    (from_code "TS2322" = .TypeMismatch ∧ from_code "TS2345" = .InlineTypeMismatch ∧
     from_code "TS2554" = .MissingParameters ∧ from_code "TS7006" = .NoImplicitAny ∧
     from_code "TS7044" = .NoImplicitAny ∧ from_code "TS2741" = .PropertyMissingInType ∧
     from_code "TS2367" = .UnintentionalComparison ∧ from_code "TS18046" = .ObjectIsUnknown ∧
     from_code "TS2339" = .PropertyDoesNotExist ∧
     from_code "TS2532" = .ObjectIsPossiblyUndefined ∧
     from_code "TS18048" = .ObjectIsPossiblyUndefined ∧
     from_code "TS2531" = .ObjectIsPossiblyNull ∧
     from_code "TS18047" = .ObjectIsPossiblyNull ∧
     from_code "TS2352" = .DirectCastPotentiallyMistaken ∧
     from_code "TS2556" = .SpreadArgumentMustBeTupleType ∧
     from_code "TS2363" = .RightSideArithmeticMustBeNumber ∧
     from_code "TS2394" = .IncompatibleOverload ∧
     from_code "TS2451" = .InvalidShadowInScope ∧
     from_code "TS2307" = .NonExistentModuleImport ∧
     from_code "TS2540" = .ReadonlyPropertyAssignment ∧
     from_code "TS2420" = .IncorrectInterfaceImplementation) ∧
    ∀ s : String, s ∉ knownCodes → from_code s = .Unsupported s := by
  constructor
  · decide
  · intro s hs
    simp only [knownCodes, List.mem_cons, List.not_mem_nil, or_false, not_or] at hs
    obtain ⟨h1, h2, h3, h4, h5, h6, h7, h8, h9, h10, h11, h12, h13, h14, h15, h16, h17,
      h18, h19, h20, h21⟩ := hs
    simp [from_code, h1, h2, h3, h4, h5, h6, h7, h8, h9, h10, h11, h12, h13, h14, h15,
      h16, h17, h18, h19, h20, h21]

/-- Witness for C1: a concrete unknown code string degrades to `Unsupported`
with the original string preserved. -/
theorem c1_classification_total_witness :
    from_code "TS9999" = .Unsupported "TS9999" :=
  c1_classification_total.2 "TS9999" (by decide)

/-- Claim C2: the valid-input round trip — parsing the documented line yields
exactly the documented record, and synthesis on that record (with any token
sequence) yields one suggestion line that contains both `string` and `number`. -/
theorem c2_round_trip :
    parse "src/app.ts(10,5): error TS2322: Type \x27string\x27 is not assignable to type \x27number\x27." =
      some ⟨"src/app.ts", 10, 5, .TypeMismatch,
        "Type \x27string\x27 is not assignable to type \x27number\x27."⟩ ∧
    (∀ ts : List Token,
      build ⟨"src/app.ts", 10, 5, .TypeMismatch,
          "Type \x27string\x27 is not assignable to type \x27number\x27."⟩ ts =
        some ⟨["Try converting this value from `string` to `number`."],
          some "Ensure that the types are compatible or perform an explicit conversion."⟩) ∧
    containsStr "Try converting this value from `string` to `number`." "string" = true ∧
    containsStr "Try converting this value from `string` to `number`." "number" = true :=
  ⟨by decide, fun ts => rfl, by decide, by decide⟩

/-- Witness for C2: the synthesis equation applied at the empty token sequence. -/
theorem c2_round_trip_witness :
    build ⟨"src/app.ts", 10, 5, .TypeMismatch,
        "Type \x27string\x27 is not assignable to type \x27number\x27."⟩ [] =
      some ⟨["Try converting this value from `string` to `number`."],
        some "Ensure that the types are compatible or perform an explicit conversion."⟩ :=
  c2_round_trip.2.1 []

/-- Claim C7 (code bug): the parser accepts column 0, and on such an error the
missing-parameters strategy evaluates `err.column - 1` on `usize`, which overflows
as soon as some token lies on the error's line — a panic under the debug profile
(modelled by `Except.error ()`), and a silent wrap to `2^64 - 1` under the release
profile, where no token can match and the placeholder name is used. -/
theorem c7_underflow_panic :
    parse "a.ts(1,0): error TS2554: m" = some ⟨"a.ts", 1, 0, .MissingParameters, "m"⟩ ∧
    missingParametersD ⟨"a.ts", 1, 0, .MissingParameters, "m"⟩ [⟨"f", 1, 0⟩] = .error () ∧
    build ⟨"a.ts", 1, 0, .MissingParameters, "m"⟩ [⟨"f", 1, 0⟩] =
      some ⟨["Check if all required arguments are provided when invoking function"],
        some "Function `function` is missing 1 or more arguments."⟩ :=
  ⟨by decide, rfl, by decide⟩

/-- Claim C8: intentional non-coverage — for every error of category
`ObjectIsUnknown`, `ObjectIsPossiblyNull` or `Unsupported` (any code string) and
every token sequence, synthesis returns no suggestion at all. -/
theorem c8_non_coverage :
    ∀ (f : String) (l c : Nat) (m : String) (ts : List Token),
      build ⟨f, l, c, .ObjectIsUnknown, m⟩ ts = none ∧
      build ⟨f, l, c, .ObjectIsPossiblyNull, m⟩ ts = none ∧
      ∀ s : String, build ⟨f, l, c, .Unsupported s, m⟩ ts = none :=
  fun _ _ _ _ _ => ⟨rfl, rfl, fun _ => rfl⟩

/-- Witness for C8: concrete instances of the three non-covered categories. -/
theorem c8_non_coverage_witness :
    build ⟨"a.ts", 1, 1, .ObjectIsUnknown, "m"⟩ [] = none ∧
    build ⟨"a.ts", 1, 1, .ObjectIsPossiblyNull, "m"⟩ [] = none ∧
    build ⟨"a.ts", 1, 1, .Unsupported "TS9999", "m"⟩ [] = none :=
  ⟨(c8_non_coverage "a.ts" 1 1 "m" []).1, (c8_non_coverage "a.ts" 1 1 "m" []).2.1,
    (c8_non_coverage "a.ts" 1 1 "m" []).2.2 "TS9999"⟩

/-- Claim C9 (code bug): the order of the object-diff mismatch lines depends on the
iteration order of the expected-property mapping.  The two association lists below
are permutations of each other and agree as mappings on both keys — exactly the
situation of the source's unordered `HashMap`, whose per-instance random seed can
realize either order — yet the diff outputs differ; the last conjunct evaluates the
diff on the failing message under the embedding's fixed insertion order. -/
theorem c9_order_dependence :
    (lookupA [("a", "string"), ("b", "string")] "a" =
       lookupA [("b", "string"), ("a", "string")] "a") ∧
    (lookupA [("a", "string"), ("b", "string")] "b" =
       lookupA [("b", "string"), ("a", "string")] "b") ∧
    List.Perm [("a", "string"), ("b", "string")] [("b", "string"), ("a", "string")] ∧
    diffProps (parseObjectProps "\x7b a: number; b: boolean \x7d".data)
        [("a", "string"), ("b", "string")] ≠
      diffProps (parseObjectProps "\x7b a: number; b: boolean \x7d".data)
        [("b", "string"), ("a", "string")] ∧
    parse2345 "Argument of type \x27\x7b a: number; b: boolean \x7d\x27 is not assignable to parameter of type \x27\x7b a: string; b: string \x7d\x27." =
      some [("a", "number", "string"), ("b", "boolean", "string")] := by
  refine ⟨by decide, by decide, ?_, by decide, by decide⟩
  decide

/-- Claim C3: parsing is total-reject on malformed input — a missing separator at
any of the four splits yields `none`, a coordinate part the integer parser rejects
yields `none`, any accepted coordinate part has the numeric shape (optional single
sign, then digits only, so non-numeric text always fails), and the two documented
examples yield `none`. -/
theorem c3_parse_total_reject :
    (∀ s : String, splitOnceChar '(' s.data = none → parse s = none) ∧
    (∀ (s : String) (p : List Char × List Char), splitOnceChar '(' s.data = some p →
      splitOnceL sepParenError p.2 = none → parse s = none) ∧
    (∀ (s : String) (p q : List Char × List Char), splitOnceChar '(' s.data = some p →
      splitOnceL sepParenError p.2 = some q →
      splitOnceChar ',' q.1 = none → parse s = none) ∧
    (∀ (s : String) (p q r : List Char × List Char), splitOnceChar '(' s.data = some p →
      splitOnceL sepParenError p.2 = some q → splitOnceChar ',' q.1 = some r →
      splitOnceL sepColonSpace q.2 = none → parse s = none) ∧
    (∀ (s : String) (p q r c : List Char × List Char), splitOnceChar '(' s.data = some p →
      splitOnceL sepParenError p.2 = some q → splitOnceChar ',' q.1 = some r →
      splitOnceL sepColonSpace q.2 = some c →
      parseUsize r.1 = none ∨ parseUsize r.2 = none → parse s = none) ∧
    (∀ (l : List Char) (n : Nat), parseUsize l = some n → numericShape l = true) ∧
    parse "bad input" = none ∧
    parse "a.ts(3,x): error TS2322: msg" = none := by
  refine ⟨?_, ?_, ?_, ?_, ?_, ?_, by decide, by decide⟩
  · intro s h1
    simp [parse, h1]
  · intro s p h1 h2
    simp [parse, h1, h2]
  · intro s p q h1 h2 h3
    simp [parse, h1, h2, h3]
  · intro s p q r h1 h2 h3 h4
    simp [parse, h1, h2, h3, h4]
  · intro s p q r c h1 h2 h3 h4 h5
    rcases h5 with h5 | h5
    · simp [parse, h1, h2, h3, h4, h5]
    · cases hl : parseUsize r.1 <;> simp [parse, h1, h2, h3, h4, h5, hl]
  · intro l n h
    match l with
    | [] => simp [parseUsize] at h
    | c :: rest =>
      simp only [parseUsize] at h
      by_cases hp : c = '+'
      · rw [if_pos hp] at h
        dsimp only at h
        by_cases he : rest = []
        · rw [if_pos he] at h
          exact absurd h (by simp)
        · rw [if_neg he] at h
          by_cases hd : rest.all Char.isDigit
          · cases rest with
            | nil => exact absurd rfl he
            | cons x xs => simp [numericShape, hp, hd]
          · rw [if_neg hd] at h
            exact absurd h (by simp)
      · rw [if_neg hp] at h
        by_cases hm : c = '-'
        · rw [if_pos hm] at h
          dsimp only at h
          by_cases he : rest = []
          · rw [if_pos he] at h
            exact absurd h (by simp)
          · rw [if_neg he] at h
            by_cases hd : rest.all Char.isDigit
            · cases rest with
              | nil => exact absurd rfl he
              | cons x xs => simp [numericShape, hp, hm, hd]
            · rw [if_neg hd] at h
              exact absurd h (by simp)
        · rw [if_neg hm] at h
          dsimp only at h
          rw [if_neg (List.cons_ne_nil c rest)] at h
          by_cases hd : (c :: rest).all Char.isDigit
          · simp [numericShape, hp, hm, hd]
          · rw [if_neg hd] at h
            exact absurd h (by simp)

/-- Witness for C3: a string with no `(` separator fails the parse. -/
theorem c3_parse_total_reject_witness : parse "no separators here" = none :=
  c3_parse_total_reject.1 "no separators here" (by decide)

/-- Claim C4: position-based token lookup — the first token (in input order) on the
error's line whose character span contains the error's column minus one supplies
the subject name of the missing-parameters suggestion, overriding the
message-derived name; with no such token the message-derived or placeholder name
is used; the wrapped subtraction agrees with `column - 1` for every 1-based
in-range column; and on the documented concrete input the suggestion names `foo`. -/
theorem c4_position_lookup :
    (∀ (e : TsError) (ts : List Token) (t : Token), e.code = .MissingParameters →
      findTok e ts = some t →
      build e ts =
        some ⟨["Check if all required arguments are provided when invoking " ++ t.raw],
          some ("Function `" ++ t.raw ++ "` is missing 1 or more arguments.")⟩) ∧
    (∀ (e : TsError) (ts : List Token), e.code = .MissingParameters →
      findTok e ts = none →
      build e ts =
        some ⟨["Check if all required arguments are provided when invoking " ++
            nthOr e.message 1 "function"],
          some ("Function `" ++ nthOr e.message 1 "function" ++
            "` is missing 1 or more arguments.")⟩) ∧
    (∀ (e : TsError) (t : Token) (ts : List Token),
      findTok e (t :: ts) =
        if tokenHit e.line (sub1w e.column) t then some t else findTok e ts) ∧
    (∀ c : Nat, 1 ≤ c → c < 2 ^ 64 → sub1w c = c - 1) ∧
    build ⟨"a.ts", 5, 3, .MissingParameters, "m"⟩ [⟨"foo", 5, 2⟩] =
      some ⟨["Check if all required arguments are provided when invoking foo"],
        some "Function `foo` is missing 1 or more arguments."⟩ := by
  refine ⟨?_, ?_, ?_, ?_, by decide⟩
  · intro e ts t hc hf
    simp [build, hc, mpName, hf]
  · intro e ts hc hf
    simp [build, hc, mpName, hf]
  · intro e t ts
    by_cases h : tokenHit e.line (sub1w e.column) t
    · simp [findTok, List.find?, h]
    · simp only [Bool.not_eq_true] at h
      simp [findTok, List.find?, h]
  · intro c h1 h2
    unfold sub1w
    omega

/-- Witness for C4: the general override rule applied at the documented input. -/
theorem c4_position_lookup_witness :
    build ⟨"a.ts", 5, 3, .MissingParameters, "m"⟩ [⟨"foo", 5, 2⟩] =
      some ⟨["Check if all required arguments are provided when invoking foo"],
        some "Function `foo` is missing 1 or more arguments."⟩ :=
  c4_position_lookup.1 ⟨"a.ts", 5, 3, .MissingParameters, "m"⟩ [⟨"foo", 5, 2⟩]
    ⟨"foo", 5, 2⟩ rfl (by decide)

/-- Claim C5: object-type diff correctness — a mismatch entry exists exactly for
each property of the expected mapping whose provided type text differs (so
properties present in only one mapping are never reported); every mapping built by
`parseObjectProps` has distinct keys, so this characterizes the diff of any
message; and on the documented literals exactly one mismatch is produced, for `b`
with `string` provided and `number` expected, the same after reordering the
properties inside both literal texts. -/
theorem c5_object_diff :
    (∀ prov exp : List (String × String), keyNodup exp →
      ∀ p pv ev : String,
        ((p, pv, ev) ∈ diffProps prov exp ↔
          lookupA exp p = some ev ∧ lookupA prov p = some pv ∧ pv ≠ ev)) ∧
    (∀ obj : List Char, keyNodup (parseObjectProps obj)) ∧
    parse2345 "Argument of type \x27\x7b a: string; b: string \x7d\x27 is not assignable to parameter of type \x27\x7b a: string; b: number \x7d\x27." =
      some [("b", "string", "number")] ∧
    parse2345 "Argument of type \x27\x7b b: string; a: string \x7d\x27 is not assignable to parameter of type \x27\x7b b: number; a: string \x7d\x27." =
      some [("b", "string", "number")] :=
  ⟨mem_diffProps, keyNodup_parseObjectProps, by decide, by decide⟩

/-- Witness for C5: the membership characterization applied to concrete mappings. -/
theorem c5_object_diff_witness :
    ("a", "x", "y") ∈ diffProps [("a", "x")] [("a", "y")] :=
  (c5_object_diff.1 [("a", "x")] [("a", "y")] (by simp [keyNodup]) "a" "x" "y").mpr
    ⟨by decide, by decide, by decide⟩

/-- Claim C6 counterexample: the claim says extraction degradation never lets a
covered category return nothing, in particular for the type-mismatch category and
every message — but on a type-mismatch error whose message does not match the
`Type '...'` template, synthesis returns no result (the handler propagates the
extraction failure with `?`). -/
theorem c6_degradation_counterexample :
    build ⟨"f.ts", 1, 1, .TypeMismatch, "hello"⟩ [] = none := by decide

/-- Claim C6 (amended): for every error of a covered category other than
type-mismatch, missing quoted segments or malformed object literals never abort
synthesis — a suggestion is always produced, with placeholders or empty mappings
substituted; the type-mismatch strategy instead returns nothing exactly when the
message does not match the `Type '...' ... '...'` template. -/
theorem c6_degradation_amended :
    (∀ (e : TsError) (ts : List Token),
      e.code ≠ .TypeMismatch → e.code ≠ .ObjectIsPossiblyNull → e.code ≠ .ObjectIsUnknown →
      (∀ s : String, e.code ≠ .Unsupported s) → (build e ts).isSome = true) ∧
    (∀ (e : TsError) (ts : List Token), e.code = .TypeMismatch →
      (build e ts = none ↔ parse2322core e.message.data = none)) := by
  constructor
  · intro e ts h1 h2 h3 h4
    obtain ⟨f, l, c, code, m⟩ := e
    cases code
    case TypeMismatch => exact absurd rfl h1
    case ObjectIsPossiblyNull => exact absurd rfl h2
    case ObjectIsUnknown => exact absurd rfl h3
    case Unsupported s => exact absurd rfl (h4 s)
    case PropertyMissingInType =>
      cases hm : parsePropertyMissing m <;> simp [build, hm]
    all_goals simp [build]
  · intro e ts hc
    obtain ⟨f, l, c, code, m⟩ := e
    cases hc
    simp only [build, typeMismatch2322]
    cases hp : parse2322core m.data <;> simp [hp]

/-- Witness for C6 (amended): a covered non-type-mismatch category with a message
holding no quoted segment still yields a suggestion. -/
theorem c6_degradation_amended_witness :
    (build ⟨"a.ts", 1, 1, .NoImplicitAny, "no quotes at all"⟩ []).isSome = true :=
  c6_degradation_amended.1 ⟨"a.ts", 1, 1, .NoImplicitAny, "no quotes at all"⟩ []
    (by decide) (by decide) (by decide) (fun s h => CommonErrors.noConfusion h)

/-- Claim C10: for every inline-argument-type-mismatch error and every token
sequence, synthesis returns a present suggestion whose help line is the fixed
check-the-function-arguments text; and when either object-literal marker is absent
from the message, or the diff has no differing shared property, the suggestions
list is empty (a present result with zero lines, never an absent result). -/
theorem c10_inline_always_some :
    ∀ (f : String) (l c : Nat) (m : String) (ts : List Token),
      build ⟨f, l, c, .InlineTypeMismatch, m⟩ ts =
        some ⟨(inline2345 m).getD [],
          some "Check the function arguments to ensure they match the expected parameter types."⟩ ∧
      ((extractObjectType m.data markerArg = none ∨ extractObjectType m.data markerParam = none) →
        (inline2345 m).getD [] = []) ∧
      (parse2345 m = some [] → (inline2345 m).getD [] = []) := by
  intro f l c m ts
  refine ⟨rfl, ?_, ?_⟩
  · intro h
    rcases h with h | h
    · simp [inline2345, parse2345, h]
    · cases h1 : extractObjectType m.data markerArg <;>
        simp [inline2345, parse2345, h1, h]
  · intro h
    simp [inline2345, h]

/-- Witness for C10: on a message with no marker at all, synthesis still returns a
suggestion record, with zero suggestion lines and the fixed help line. -/
theorem c10_inline_always_some_witness :
    build ⟨"a.ts", 1, 1, .InlineTypeMismatch, "x"⟩ [] =
      some ⟨[],
        some "Check the function arguments to ensure they match the expected parameter types."⟩ := by
  have h := c10_inline_always_some "a.ts" 1 1 "x" []
  have h2 : (inline2345 "x").getD [] = [] := h.2.1 (Or.inl (by decide))
  rw [h.1, h2]

end TsAnalyzer
